import Mathlib

/-!
Verification development for the delta-rs commit protocol / snapshot engine.

The error taxonomy is embedded from `crates/core/src/errors.rs`. External
error types (serde_json, object_store, parquet, arrow, chrono, io, the
kernel crate) are opaque to that file; each is modelled as a structure
carrying the text its `Display` implementation produces, which is all
`errors.rs` ever does with them (interpolate them into a message).
Operations whose code is not part of this crate slice (commit loop,
snapshot replay, change-data-feed reads, partition-filter validation) are
modelled from the specification; each such definition says so in its doc
comment.
-/

namespace DeltaRs

/-- `serde_json::error::Error`, modelled as its display text. -/
structure SerdeJsonError where
  msg : String
deriving Repr, DecidableEq

/-- `std::io::Error`, modelled as its display text. -/
structure IoError where
  msg : String
deriving Repr, DecidableEq

/-- `object_store::Error`, modelled as its display text. -/
structure ObjectStoreError where
  msg : String
deriving Repr, DecidableEq

/-- `parquet::errors::ParquetError`, modelled as its display text. -/
structure ParquetError where
  msg : String
deriving Repr, DecidableEq

/-- `arrow::error::ArrowError`, modelled as its display text. -/
structure ArrowError where
  msg : String
deriving Repr, DecidableEq

/-- `chrono::ParseError`, modelled as its display text. -/
structure ChronoParseError where
  msg : String
deriving Repr, DecidableEq

/-- `delta_kernel::error::Error`, modelled as its display text. -/
structure KernelError where
  msg : String
deriving Repr, DecidableEq

/-- `crate::kernel::Error`, modelled as its display text. -/
structure KernelCrateError where
  msg : String
deriving Repr, DecidableEq

/-- `crate::kernel::transaction::CommitBuilderError`, modelled as its display text. -/
structure CommitBuilderError where
  msg : String
deriving Repr, DecidableEq

/-- `crate::kernel::transaction::TransactionError`, modelled as its display text. -/
structure TransactionError where
  msg : String
deriving Repr, DecidableEq

/-- `Box<dyn std::error::Error + Send + Sync>`, modelled as its display text. -/
structure BoxedError where
  msg : String
deriving Repr, DecidableEq

/-- `chrono::DateTime<Utc>`, modelled as its display text. -/
structure DateTimeUtc where
  display : String
deriving Repr, DecidableEq

/-- The `DeltaTableError` enum of `crates/core/src/errors.rs`, one
constructor per variant, in source order, with the source's field names
(`end` is a Lean keyword, so the `start`/`end` fields of the change-data
variants appear as positional arguments in source order). `i64` fields are
`Int`. -/
inductive DeltaTableError where
  | KernelError (e : KernelError)
  | ObjectStore (source : ObjectStoreError)
  | Parquet (source : ParquetError)
  | Arrow (source : ArrowError)
  | InvalidJsonLog (json_err : SerdeJsonError) (line : String) (version : Int)
  | InvalidStatsJson (json_err : SerdeJsonError)
  | InvalidInvariantJson (json_err : SerdeJsonError) (line : String)
  | InvalidVersion (version : Int)
  | MissingDataFile (source : IoError) (path : String)
  | InvalidDateTimeString (source : ChronoParseError)
  | InvalidData (violations : List String)
  | NotATable (msg : String)
  | NoMetadata
  | NoSchema
  | LoadPartitions
  | SchemaMismatch (msg : String)
  | PartitionError (partition : String)
  | InvalidPartitionFilter (partition_filter : String)
  | ColumnsNotPartitioned (nonpartitioned_columns : List String)
  | Io (source : IoError)
  | CommitValidation (source : CommitBuilderError)
  | Transaction (source : TransactionError)
  | VersionAlreadyExists (version : Int)
  | VersionMismatch (found : Int) (expected : Int)
  | MissingFeature (feature : String) (url : String)
  | InvalidTableLocation (location : String)
  | SerializeLogJson (json_err : SerdeJsonError)
  | SerializeSchemaJson (json_err : SerdeJsonError)
  | Generic (msg : String)
  | GenericError (source : BoxedError)
  | Kernel (source : KernelCrateError)
  | MetadataError (msg : String)
  | NotInitialized
  | NotInitializedWithFiles (operation : String)
  | ChangeDataNotRecorded (version startVersion endVersion : Int)
  | ChangeDataNotEnabled (version : Int)
  | ChangeDataInvalidVersionRange (startVersion endVersion : Int)
  | ChangeDataTimestampGreaterThanCommit (ending_timestamp : DateTimeUtc)
  | NoStartingVersionOrTimestamp
deriving Repr, DecidableEq

/-- Rust `{:#?}` (alternate Debug) rendering of a `Vec<String>`, as used by
the `InvalidData` and `ColumnsNotPartitioned` messages. -/
def debugStringList (xs : List String) : String :=
  match xs with
  | [] => "[]"
  | _ => "[\n" ++ String.join (xs.map (fun s => "    \x22" ++ s ++ "\x22,\n")) ++ "]"

/-- The `Display` text of each variant: a direct transcription of the
`#[error(...)]` attribute on each variant of `DeltaTableError`. -/
def DeltaTableError.message : DeltaTableError → String
  | .KernelError e => "Kernel error: " ++ e.msg
  | .ObjectStore source => "Failed to read delta log object: " ++ source.msg
  | .Parquet source => "Failed to parse parquet: " ++ source.msg
  | .Arrow source => "Failed to convert into Arrow schema: " ++ source.msg
  | .InvalidJsonLog json_err line version =>
      "Invalid JSON in log record, version=" ++ toString version ++ ", line=`" ++ line
        ++ "`, err=`" ++ json_err.msg ++ "`"
  | .InvalidStatsJson json_err => "Invalid JSON in file stats: " ++ json_err.msg
  | .InvalidInvariantJson json_err line =>
      "Invalid JSON in invariant expression, line=`" ++ line ++ "`, err=`" ++ json_err.msg ++ "`"
  | .InvalidVersion version => "Invalid table version: " ++ toString version
  | .MissingDataFile source path =>
      "Corrupted table, cannot read data file " ++ path ++ ": " ++ source.msg
  | .InvalidDateTimeString source => "Invalid datetime string: " ++ source.msg
  | .InvalidData violations =>
      "Attempted to write invalid data to the table: " ++ debugStringList violations
  | .NotATable msg => "Not a Delta table: " ++ msg
  | .NoMetadata => "No metadata found, please make sure table is loaded."
  | .NoSchema => "No schema found, please make sure table is loaded."
  | .LoadPartitions => "No partitions found, please make sure table is partitioned."
  | .SchemaMismatch msg => "Data does not match the schema or partitions of the table: " ++ msg
  | .PartitionError partition => "This partition is not formatted with key=value: " ++ partition
  | .InvalidPartitionFilter partition_filter =>
      "Invalid partition filter found: " ++ partition_filter ++ "."
  | .ColumnsNotPartitioned nonpartitioned_columns =>
      "Tried to filter partitions on non-partitioned columns: "
        ++ debugStringList nonpartitioned_columns
  | .Io _ => "Failed to read line from log record"
  | .CommitValidation source => "Commit actions are unsound: " ++ source.msg
  | .Transaction source => "Transaction failed: " ++ source.msg
  | .VersionAlreadyExists version =>
      "Delta transaction failed, version " ++ toString version ++ " already exists."
  | .VersionMismatch found expected =>
      "Delta transaction failed, version " ++ toString found ++ " does not follow "
        ++ toString expected
  | .MissingFeature feature url =>
      "Delta-rs must be build with feature \x27" ++ feature ++ "\x27 to support loading from: "
        ++ url ++ "."
  | .InvalidTableLocation location => "Cannot infer storage location from: " ++ location
  | .SerializeLogJson json_err => "Log JSON serialization error: " ++ json_err.msg
  | .SerializeSchemaJson json_err => "Schema JSON serialization error: " ++ json_err.msg
  | .Generic msg => "Generic DeltaTable error: " ++ msg
  | .GenericError source => "Generic error: " ++ source.msg
  | .Kernel source => "Kernel: " ++ source.msg
  | .MetadataError msg => "Table metadata is invalid: " ++ msg
  | .NotInitialized => "Table has not yet been initialized"
  | .NotInitializedWithFiles operation =>
      "Table has not yet been initialized with files, therefore " ++ operation
        ++ " is not supported"
  | .ChangeDataNotRecorded version startVersion endVersion =>
      "Change Data not enabled for version: " ++ toString version ++ ", Start: "
        ++ toString startVersion ++ ", End: " ++ toString endVersion
  | .ChangeDataNotEnabled version =>
      "Reading a table version: " ++ toString version ++ " that does not have change data enabled"
  | .ChangeDataInvalidVersionRange startVersion endVersion =>
      "Invalid version. Start version " ++ toString startVersion
        ++ " is greater than end version " ++ toString endVersion
  | .ChangeDataTimestampGreaterThanCommit ending_timestamp =>
      "End timestamp " ++ ending_timestamp.display ++ " is greater than latest commit timestamp"
  | .NoStartingVersionOrTimestamp => "No starting version or timestamp provided for CDC"

/-- The blanket `impl From<serde_json::Error> for DeltaTableError` of
`errors.rs`: every serde_json error becomes `InvalidStatsJson`. -/
def fromSerdeJsonError (value : SerdeJsonError) : DeltaTableError :=
  DeltaTableError.InvalidStatsJson value

/-- `DeltaTableError::not_a_table`: builds a `NotATable` with a message
naming the path, transcribed from `errors.rs`. -/
def DeltaTableError.not_a_table (path : String) : DeltaTableError :=
  DeltaTableError.NotATable
    ("No snapshot or version 0 found, perhaps " ++ path ++ " is an empty dir?")

/-- `needle` occurs contiguously inside `hay`. -/
def strContains (hay needle : String) : Prop :=
  ∃ a b, hay = a ++ needle ++ b

/-- Modelled from the spec: the Action data model of section 3 (the action
structs live outside this crate slice). One constructor per variant, with
the spec's fields; timestamps and sizes are `Int`, stats are opaque
optional strings. -/
inductive Action where
  | addFile (path : String) (partitionValues : List (String × String)) (size : Int)
      (modificationTime : Int) (dataChange : Bool) (stats : Option String)
  | removeFile (path : String) (deletionTimestamp : Int) (dataChange : Bool)
      (extendedStats : Option String)
  | metadata (id : String) (schema : String) (partitionColumns : List String)
      (createdTime : Int) (configuration : List (String × String))
  | protocol (minReaderVersion : Int) (minWriterVersion : Int)
      (readerFeatures : List String) (writerFeatures : List String)
  | commitInfo (timestamp : Int) (operation : String)
  | txn (appId : String) (version : Int) (lastUpdated : Int)
  | cdc (path : String) (partitionValues : List (String × String)) (size : Int)
deriving Repr, DecidableEq

/-- The data-file path an action mutates, if any. -/
def Action.mutatedPath : Action → Option String
  | .addFile path _ _ _ _ _ => some path
  | .removeFile path _ _ _ => some path
  | _ => none

/-- Paths mutated (added or removed) by an action list. -/
def mutatedPaths (actions : List Action) : List String :=
  actions.filterMap Action.mutatedPath

/-- Whether an action list contains a Metadata or Protocol change. -/
def changesMetadataOrProtocol (actions : List Action) : Bool :=
  actions.any fun a =>
    match a with
    | .metadata _ _ _ _ _ => true
    | .protocol _ _ _ _ => true
    | _ => false

/-- Modelled from the spec: the semantic-conflict classification of
section 4.2 (the conflict checker lives outside this crate slice). A true
conflict is an overlapping file mutation (concurrent Add or Remove for a
path this transaction also mutates) or a concurrent Metadata/Protocol
change invalidating the transaction's assumptions. -/
def semanticConflict (txActions winner : List Action) : Bool :=
  (mutatedPaths txActions).any (fun p => (mutatedPaths winner).contains p)
    || changesMetadataOrProtocol winner

/-- Modelled from the spec: the bounded commit retry loop of section 4.2
(the commit engine lives outside this crate slice). `log v` is the already
durable entry at version `v` (write-if-absent fails exactly when it is
`some`). Attempt the write at `version`; if the slot is taken, classify
the winner: a true conflict fails immediately with `VersionMismatch
(version, base)` and is never retried; otherwise rebase to the next
version and retry while attempts remain; exhausting the bound fails with
`VersionAlreadyExists` at the contested version. -/
def commitAttempts (log : Int → Option (List Action)) (txActions : List Action)
    (base : Int) : Nat → Int → Except DeltaTableError Int
  | 0, version =>
    match log version with
    | none => Except.ok version
    | some winner =>
      if semanticConflict txActions winner then
        Except.error (DeltaTableError.VersionMismatch version base)
      else
        Except.error (DeltaTableError.VersionAlreadyExists version)
  | n + 1, version =>
    match log version with
    | none => Except.ok version
    | some winner =>
      if semanticConflict txActions winner then
        Except.error (DeltaTableError.VersionMismatch version base)
      else
        commitAttempts log txActions base n (version + 1)

/-- Modelled from the spec: `commit(baseSnapshot, actions)` targets
`base + 1` and retries at most `maxRetries` times. -/
def commit (log : Int → Option (List Action)) (txActions : List Action)
    (base : Int) (maxRetries : Nat) : Except DeltaTableError Int :=
  commitAttempts log txActions base maxRetries (base + 1)

/-- Modelled from the spec: the Snapshot of section 3 — version, latest
Metadata and Protocol actions seen, and the files map (path to its AddFile
action), kept as an association list. -/
structure Snapshot where
  version : Int
  metadata : Option Action
  protocol : Option Action
  files : List (String × Action)
deriving Repr, DecidableEq

/-- Lookup in the files map. -/
def lookupFile (files : List (String × Action)) (path : String) : Option Action :=
  (files.find? (fun kv => kv.1 == path)).map Prod.snd

/-- The io source error attached to a `MissingDataFile` raised during
replay for `path`. -/
def missingDataFileSource (path : String) : IoError :=
  { msg := "remove action on a file not in the table state: " ++ path }

/-- Modelled from the spec: one step of snapshot replay (section 4.1; the
replay engine lives outside this crate slice). AddFile inserts into the
files map; RemoveFile deletes the matching path, failing with
`MissingDataFile` when the path is not currently present; Metadata and
Protocol replace the corresponding field (latest wins); other actions
leave the state unchanged. -/
def applyAction (s : Snapshot) : Action → Except DeltaTableError Snapshot
  | .addFile path pv size mt dc stats =>
      Except.ok { s with
        files := (path, Action.addFile path pv size mt dc stats)
          :: s.files.filter (fun kv => kv.1 != path) }
  | .removeFile path _ _ _ =>
      match lookupFile s.files path with
      | some _ => Except.ok { s with files := s.files.filter (fun kv => kv.1 != path) }
      | none =>
          Except.error (DeltaTableError.MissingDataFile (missingDataFileSource path) path)
  | .metadata id schema pcols ct conf =>
      Except.ok { s with metadata := some (Action.metadata id schema pcols ct conf) }
  | .protocol mr mw rf wf =>
      Except.ok { s with protocol := some (Action.protocol mr mw rf wf) }
  | _ => Except.ok s

/-- Replay the actions of one log entry, left to right, stopping at the
first failure. -/
def replayActions (s : Snapshot) : List Action → Except DeltaTableError Snapshot
  | [] => Except.ok s
  | a :: rest =>
    match applyAction s a with
    | Except.ok s2 => replayActions s2 rest
    | Except.error e => Except.error e

/-- Replay a contiguous sequence of log entries, bumping the version per
entry. -/
def replayEntries (s : Snapshot) : List (List Action) → Except DeltaTableError Snapshot
  | [] => Except.ok s
  | e :: rest =>
    match replayActions { s with version := s.version + 1 } e with
    | Except.ok s2 => replayEntries s2 rest
    | Except.error err => Except.error err

/-- The state before any version exists: delta-rs uses -1 as the
uninitialized version. -/
def initialSnapshot : Snapshot :=
  { version := -1, metadata := none, protocol := none, files := [] }

/-- Modelled from the spec: snapshot construction (section 4.1; the reader
lives outside this crate slice). With no checkpoint and no committed log
entries (version 0 absent) it fails via `DeltaTableError.not_a_table` for
the table path; otherwise it replays the entries on top of the checkpoint
state (or the empty state). -/
def loadSnapshot (tablePath : String) (checkpoint : Option Snapshot)
    (entries : List (List Action)) : Except DeltaTableError Snapshot :=
  match checkpoint, entries with
  | none, [] => Except.error (DeltaTableError.not_a_table tablePath)
  | some cp, es => replayEntries cp es
  | none, es => replayEntries initialSnapshot es

/-- Modelled from the spec: whether the table configuration enables the
change data feed (checked via `Metadata.configuration`). -/
def cdfEnabled (configuration : List (String × String)) : Bool :=
  configuration.any (fun kv => kv.1 == "delta.enableChangeDataFeed" && kv.2 == "true")

/-- A row-level change event of the change data feed. -/
inductive ChangeEvent where
  | insert (path : String) (version : Int)
  | delete (path : String) (version : Int)
  | cdcFile (path : String) (version : Int)
deriving Repr, DecidableEq

/-- Modelled from the spec: the events one committed version contributes
(section 4.4). Explicit Cdc actions win; otherwise insert/delete events
are derived from the AddFile/RemoveFile actions directly. -/
def changesForVersion (version : Int) (actions : List Action) : List ChangeEvent :=
  let cdcs := actions.filterMap fun a =>
    match a with
    | .cdc path _ _ => some (ChangeEvent.cdcFile path version)
    | _ => none
  match cdcs with
  | [] =>
    actions.filterMap fun a =>
      match a with
      | .addFile path _ _ _ _ _ => some (ChangeEvent.insert path version)
      | .removeFile path _ _ _ => some (ChangeEvent.delete path version)
      | _ => none
  | _ => cdcs

/-- Modelled from the spec: `readChanges(startVersion, endVersion)`
(section 4.4; the reader lives outside this crate slice). Preconditions in
the spec's order: the feed must be enabled in the configuration, else
`ChangeDataNotEnabled` at the version being read; `startVersion ≤
endVersion`, else `ChangeDataInvalidVersionRange` carrying both bounds.
Then each version in `[start, end]` contributes its events in version
order. -/
def readChanges (configuration : List (String × String)) (log : Int → List Action)
    (startVersion endVersion : Int) : Except DeltaTableError (List ChangeEvent) :=
  if !cdfEnabled configuration then
    Except.error (DeltaTableError.ChangeDataNotEnabled startVersion)
  else if startVersion > endVersion then
    Except.error (DeltaTableError.ChangeDataInvalidVersionRange startVersion endVersion)
  else
    Except.ok
      (((List.range (endVersion - startVersion + 1).toNat).map
          (fun i => startVersion + (i : Int))).flatMap
        (fun v => changesForVersion v (log v)))

/-- Modelled from the spec: parsing one log record (one version) from its
line-delimited JSON (sections 6 and 7; the parser lives outside this crate
slice, the JSON codec is external and passed in as `parse`). The first
malformed line fails the whole record with `InvalidJsonLog` carrying the
parse error, the offending line and the table version. -/
def parseLogLines (parse : String → Except SerdeJsonError Action) (version : Int) :
    List String → Except DeltaTableError (List Action)
  | [] => Except.ok []
  | line :: rest =>
    match parse line with
    | Except.error e => Except.error (DeltaTableError.InvalidJsonLog e line version)
    | Except.ok a =>
      match parseLogLines parse version rest with
      | Except.ok as => Except.ok (a :: as)
      | Except.error err => Except.error err

/-- Parse every version of a log independently: each version's record is
parsed on its own, so one version's result never depends on another's. -/
def parseLog (parse : String → Except SerdeJsonError Action)
    (entries : List (Int × List String)) :
    List (Int × Except DeltaTableError (List Action)) :=
  entries.map (fun ve => (ve.1, parseLogLines parse ve.1 ve.2))

/-- The columns a set of partition filters references that are not among
the table's partition columns. -/
def nonPartitionedColumns (partitionColumns : List String)
    (filters : List (String × String)) : List String :=
  (filters.map Prod.fst).filter (fun c => !partitionColumns.contains c)

/-- Modelled from the spec: validating partition filters against the
table's partition columns (section 7; the validator lives outside this
crate slice). A filter referencing any column that is not a partition
column fails, before any I/O, with `ColumnsNotPartitioned` listing the
offending columns. -/
def validatePartitionFilters (partitionColumns : List String)
    (filters : List (String × String)) : Except DeltaTableError Unit :=
  match nonPartitionedColumns partitionColumns filters with
  | [] => Except.ok ()
  | bad => Except.error (DeltaTableError.ColumnsNotPartitioned bad)

/-- Split a character list at the first `=`, if any. -/
def splitAtEq : List Char → Option (List Char × List Char)
  | [] => none
  | c :: rest =>
    if c = '=' then some ([], rest)
    else
      match splitAtEq rest with
      | some (k, v) => some (c :: k, v)
      | none => none

/-- Modelled from the spec: parsing a Hive partition string (section 7;
the parser lives outside this crate slice). A string must have key=value
form — split at the first `=`; a string with no `=` fails with
`PartitionError` carrying the malformed partition string. -/
def parsePartition (s : String) : Except DeltaTableError (String × String) :=
  match splitAtEq s.data with
  | some (k, v) => Except.ok (⟨k⟩, ⟨v⟩)
  | none => Except.error (DeltaTableError.PartitionError s)

/-! Helper lemmas. -/

/-- String append is associative (componentwise on the character lists). -/
theorem strAppend_assoc : ∀ a b c : String, a ++ b ++ c = a ++ (b ++ c)
  | ⟨x⟩, ⟨y⟩, ⟨z⟩ => congrArg String.mk (List.append_assoc x y z)

/-- The empty string is a left identity for append. -/
theorem strNil_append : ∀ s : String, "" ++ s = s
  | ⟨_⟩ => rfl

/-- `commitAttempts` on a run of occupied, conflict-free slots walks the
run and, out of fuel, reports `VersionAlreadyExists` at the version it is
contesting when the bound runs out. -/
theorem commitAttempts_exhausted (log : Int → Option (List Action)) (txActions : List Action)
    (base : Int) : ∀ (attemptsLeft : Nat) (version : Int),
    (∀ i : Nat, i ≤ attemptsLeft → ∃ w, log (version + (i : Int)) = some w ∧
      semanticConflict txActions w = false) →
    commitAttempts log txActions base attemptsLeft version
      = Except.error (DeltaTableError.VersionAlreadyExists (version + (attemptsLeft : Int)))
  | 0, version, hocc => by
    obtain ⟨w, hw, hc⟩ := hocc 0 (Nat.le_refl 0)
    rw [show version + ((0 : Nat) : Int) = version by simp] at hw
    unfold commitAttempts
    rw [hw]
    simp [hc]
  | n + 1, version, hocc => by
    obtain ⟨w, hw, hc⟩ := hocc 0 (Nat.zero_le _)
    rw [show version + ((0 : Nat) : Int) = version by simp] at hw
    unfold commitAttempts
    rw [hw]
    simp only [hc, Bool.false_eq_true, if_false]
    have step := commitAttempts_exhausted log txActions base n (version + 1) (by
      intro i hi
      obtain ⟨w2, hw2, hc2⟩ := hocc (i + 1) (Nat.succ_le_succ hi)
      refine ⟨w2, ?_, hc2⟩
      rw [← hw2]
      congr 1
      omega)
    rw [step]
    congr 2
    omega

/-! Concrete fixtures used by the witness theorems. -/

/-- A log where the race for version 1 was won by an entry removing
`part-a.parquet`. -/
def exampleLogConflict : Int → Option (List Action) := fun v =>
  if v == 1 then some [Action.removeFile "part-a.parquet" 5 true none] else none

/-- A transaction adding `part-a.parquet`: it overlaps the winner above. -/
def exampleTxAdd : List Action :=
  [Action.addFile "part-a.parquet" [] 100 0 true none]

/-- A log where every version is already occupied by an unrelated
commit-info-only entry. -/
def exampleLogBusy : Int → Option (List Action) := fun _ =>
  some [Action.commitInfo 0 "WRITE"]

/-- A JSON action parser that rejects the line `bad json`. -/
def exampleParse : String → Except SerdeJsonError Action := fun s =>
  if s == "bad json" then Except.error { msg := "expected value at line 1 column 1" }
  else Except.ok (Action.commitInfo 0 "WRITE")

/-- A two-version log whose version 1 record holds a malformed line. -/
def exampleEntries : List (Int × List String) :=
  [(0, ["good"]), (1, ["good", "bad json"])]

/-- A configuration with the change data feed enabled. -/
def exampleCdfConfig : List (String × String) :=
  [("delta.enableChangeDataFeed", "true")]

/-! Claim theorems. -/

/-- C1: when a commit attempt loses the race for a version and the winning
entry is a true semantic conflict, the engine fails at once with
`VersionMismatch` — for every amount of retry budget left, so it is never
retried — and the error carries the two version numbers involved (the
contested version and the transaction's base version), which also appear
in its message. -/
theorem commit_conflict_fails_immediately
    (log : Int → Option (List Action)) (txActions winner : List Action)
    (base version : Int) (attemptsLeft : Nat)
    (hlog : log version = some winner)
    (hconflict : semanticConflict txActions winner = true) :
    commitAttempts log txActions base attemptsLeft version
      = Except.error (DeltaTableError.VersionMismatch version base) ∧
    (DeltaTableError.VersionMismatch version base).message
      = "Delta transaction failed, version " ++ toString version ++ " does not follow "
          ++ toString base := by
  refine ⟨?_, rfl⟩
  cases attemptsLeft with
  | zero =>
    unfold commitAttempts
    rw [hlog]
    simp [hconflict]
  | succ n =>
    unfold commitAttempts
    rw [hlog]
    simp [hconflict]

/-- Witness for C1 at a concrete log, transaction and retry budget. -/
theorem commit_conflict_fails_immediately_witness :
    exampleLogConflict 1 = some [Action.removeFile "part-a.parquet" 5 true none] ∧
    semanticConflict exampleTxAdd [Action.removeFile "part-a.parquet" 5 true none] = true ∧
    (commitAttempts exampleLogConflict exampleTxAdd 0 3 1
        = Except.error (DeltaTableError.VersionMismatch 1 0) ∧
      (DeltaTableError.VersionMismatch 1 0).message
        = "Delta transaction failed, version " ++ toString (1 : Int) ++ " does not follow "
            ++ toString (0 : Int)) :=
  ⟨by decide, by decide,
    commit_conflict_fails_immediately exampleLogConflict exampleTxAdd
      [Action.removeFile "part-a.parquet" 5 true none] 0 1 3 (by decide) (by decide)⟩

/-- C2: when every version attempted within the retry bound is already
taken by a non-conflicting winner, the retry loop exhausts its attempts
and commit fails with `VersionAlreadyExists` carrying the contested
version (the one whose slot was occupied on the final attempt), whose
number also appears in the message; the loop's budget is spent, so this
error is the caller's final result. -/
theorem commit_retries_exhausted
    (log : Int → Option (List Action)) (txActions : List Action)
    (base : Int) (maxRetries : Nat)
    (hocc : ∀ i : Nat, i ≤ maxRetries → ∃ w, log (base + 1 + (i : Int)) = some w ∧
      semanticConflict txActions w = false) :
    commit log txActions base maxRetries
      = Except.error (DeltaTableError.VersionAlreadyExists (base + 1 + (maxRetries : Int))) ∧
    (DeltaTableError.VersionAlreadyExists (base + 1 + (maxRetries : Int))).message
      = "Delta transaction failed, version " ++ toString (base + 1 + (maxRetries : Int))
          ++ " already exists." := by
  refine ⟨?_, rfl⟩
  unfold commit
  exact commitAttempts_exhausted log txActions base maxRetries (base + 1) hocc

/-- Witness for C2: two retries against a fully occupied log. -/
theorem commit_retries_exhausted_witness :
    (∀ i : Nat, i ≤ 2 → ∃ w, exampleLogBusy (0 + 1 + (i : Int)) = some w ∧
      semanticConflict [] w = false) ∧
    (commit exampleLogBusy [] 0 2
        = Except.error (DeltaTableError.VersionAlreadyExists (0 + 1 + ((2 : Nat) : Int))) ∧
      (DeltaTableError.VersionAlreadyExists (0 + 1 + ((2 : Nat) : Int))).message
        = "Delta transaction failed, version " ++ toString (0 + 1 + ((2 : Nat) : Int))
            ++ " already exists.") :=
  ⟨fun _ _ => ⟨[Action.commitInfo 0 "WRITE"], rfl, rfl⟩,
    commit_retries_exhausted exampleLogBusy [] 0 2
      (fun _ _ => ⟨[Action.commitInfo 0 "WRITE"], rfl, rfl⟩)⟩

/-- C3: during snapshot replay, a RemoveFile action whose path is absent
from the current files map fails the replay with `MissingDataFile`
carrying the offending path, which also appears in the error's message. -/
theorem replay_remove_missing_fails
    (s : Snapshot) (path : String) (ts : Int) (dc : Bool) (xs : Option String)
    (rest : List Action)
    (habsent : lookupFile s.files path = none) :
    replayActions s (Action.removeFile path ts dc xs :: rest)
      = Except.error (DeltaTableError.MissingDataFile (missingDataFileSource path) path) ∧
    (DeltaTableError.MissingDataFile (missingDataFileSource path) path).message
      = "Corrupted table, cannot read data file " ++ path ++ ": "
          ++ (missingDataFileSource path).msg := by
  refine ⟨?_, rfl⟩
  simp only [replayActions, applyAction, habsent]

/-- Witness for C3: removing a file from an empty table state. -/
theorem replay_remove_missing_fails_witness :
    lookupFile initialSnapshot.files "missing.parquet" = none ∧
    (replayActions initialSnapshot [Action.removeFile "missing.parquet" 0 true none]
        = Except.error
            (DeltaTableError.MissingDataFile (missingDataFileSource "missing.parquet")
              "missing.parquet") ∧
      (DeltaTableError.MissingDataFile (missingDataFileSource "missing.parquet")
          "missing.parquet").message
        = "Corrupted table, cannot read data file " ++ "missing.parquet" ++ ": "
            ++ (missingDataFileSource "missing.parquet").msg) :=
  ⟨rfl,
    replay_remove_missing_fails initialSnapshot "missing.parquet" 0 true none [] rfl⟩

/-- C4: loading a snapshot when neither a checkpoint nor any committed log
entry exists (version 0 absent) fails with the error built by
`not_a_table`, and for every path `p` that error is a `NotATable` whose
message contains `p` and states that no snapshot or version 0 was
found. -/
theorem not_a_table_when_log_empty (p : String) :
    loadSnapshot p none [] = Except.error (DeltaTableError.not_a_table p) ∧
    DeltaTableError.not_a_table p
      = DeltaTableError.NotATable
          ("No snapshot or version 0 found, perhaps " ++ p ++ " is an empty dir?") ∧
    strContains ("No snapshot or version 0 found, perhaps " ++ p ++ " is an empty dir?") p ∧
    strContains ("No snapshot or version 0 found, perhaps " ++ p ++ " is an empty dir?")
      "No snapshot or version 0 found" := by
  refine ⟨rfl, rfl,
    ⟨"No snapshot or version 0 found, perhaps ", " is an empty dir?", rfl⟩, ?_⟩
  refine ⟨"", ", perhaps " ++ p ++ " is an empty dir?", ?_⟩
  have h1 : ("No snapshot or version 0 found, perhaps " : String)
      = "No snapshot or version 0 found" ++ ", perhaps " := by decide
  rw [h1]
  simp only [strAppend_assoc, strNil_append]

/-- C5: a change-data-feed read over a range whose start version exceeds
its end version fails with `ChangeDataInvalidVersionRange` carrying both
the start and the end version, which also appear in its message (on a
feed-enabled table; the feed-enabled precondition is checked first). -/
theorem readChanges_invalid_range
    (configuration : List (String × String)) (log : Int → List Action)
    (startVersion endVersion : Int)
    (henabled : cdfEnabled configuration = true)
    (hrange : startVersion > endVersion) :
    readChanges configuration log startVersion endVersion
      = Except.error (DeltaTableError.ChangeDataInvalidVersionRange startVersion endVersion) ∧
    (DeltaTableError.ChangeDataInvalidVersionRange startVersion endVersion).message
      = "Invalid version. Start version " ++ toString startVersion
          ++ " is greater than end version " ++ toString endVersion := by
  refine ⟨?_, rfl⟩
  unfold readChanges
  rw [henabled]
  simp [hrange]

/-- Witness for C5: start 2, end 1 on a feed-enabled table. -/
theorem readChanges_invalid_range_witness :
    cdfEnabled exampleCdfConfig = true ∧ (2 : Int) > 1 ∧
    (readChanges exampleCdfConfig (fun _ => []) 2 1
        = Except.error (DeltaTableError.ChangeDataInvalidVersionRange 2 1) ∧
      (DeltaTableError.ChangeDataInvalidVersionRange 2 1).message
        = "Invalid version. Start version " ++ toString (2 : Int)
            ++ " is greater than end version " ++ toString (1 : Int)) :=
  ⟨by decide, by decide,
    readChanges_invalid_range exampleCdfConfig (fun _ => []) 2 1 (by decide) (by decide)⟩

/-- C6: a change-data-feed read against a table whose configuration does
not enable the feed fails with `ChangeDataNotEnabled`, whose `version`
field (also interpolated into the message) identifies the version being
read. -/
theorem readChanges_not_enabled
    (configuration : List (String × String)) (log : Int → List Action)
    (startVersion endVersion : Int)
    (hdisabled : cdfEnabled configuration = false) :
    readChanges configuration log startVersion endVersion
      = Except.error (DeltaTableError.ChangeDataNotEnabled startVersion) ∧
    (DeltaTableError.ChangeDataNotEnabled startVersion).message
      = "Reading a table version: " ++ toString startVersion
          ++ " that does not have change data enabled" := by
  refine ⟨?_, rfl⟩
  unfold readChanges
  rw [hdisabled]
  simp

/-- Witness for C6: an empty configuration does not enable the feed. -/
theorem readChanges_not_enabled_witness :
    cdfEnabled [] = false ∧
    (readChanges [] (fun _ => []) 0 5
        = Except.error (DeltaTableError.ChangeDataNotEnabled 0) ∧
      (DeltaTableError.ChangeDataNotEnabled 0).message
        = "Reading a table version: " ++ toString (0 : Int)
            ++ " that does not have change data enabled") :=
  ⟨by decide, readChanges_not_enabled [] (fun _ => []) 0 5 (by decide)⟩

/-- C7: a malformed JSON line in a log record fails the parse of that
version's record with `InvalidJsonLog` carrying the JSON parse error, the
offending line text and the table version (all three interpolated into
the message); and each version of the log is parsed independently, so the
result recorded for any version equals parsing that version alone. -/
theorem invalid_json_log_fails_version
    (parse : String → Except SerdeJsonError Action) (version : Int)
    (line : String) (e : SerdeJsonError) (rest : List String)
    (entries : List (Int × List String))
    (hparse : parse line = Except.error e) :
    parseLogLines parse version (line :: rest)
      = Except.error (DeltaTableError.InvalidJsonLog e line version) ∧
    (DeltaTableError.InvalidJsonLog e line version).message
      = "Invalid JSON in log record, version=" ++ toString version ++ ", line=`" ++ line
          ++ "`, err=`" ++ e.msg ++ "`" ∧
    (∀ v ls, (v, ls) ∈ entries → (v, parseLogLines parse v ls) ∈ parseLog parse entries) := by
  refine ⟨?_, rfl, ?_⟩
  · simp only [parseLogLines, hparse]
  · intro v ls hmem
    exact List.mem_map_of_mem _ hmem

/-- Witness for C7: version 1's record holds the line `bad json`. -/
theorem invalid_json_log_fails_version_witness :
    exampleParse "bad json"
      = Except.error { msg := "expected value at line 1 column 1" } ∧
    (parseLogLines exampleParse 1 ["bad json"]
        = Except.error
            (DeltaTableError.InvalidJsonLog { msg := "expected value at line 1 column 1" }
              "bad json" 1) ∧
      (DeltaTableError.InvalidJsonLog { msg := "expected value at line 1 column 1" }
          "bad json" 1).message
        = "Invalid JSON in log record, version=" ++ toString (1 : Int) ++ ", line=`"
            ++ "bad json" ++ "`, err=`"
            ++ ({ msg := "expected value at line 1 column 1" } : SerdeJsonError).msg ++ "`" ∧
      (∀ v ls, (v, ls) ∈ exampleEntries →
        (v, parseLogLines exampleParse v ls) ∈ parseLog exampleParse exampleEntries)) :=
  ⟨rfl,
    invalid_json_log_fails_version exampleParse 1 "bad json"
      { msg := "expected value at line 1 column 1" } [] exampleEntries rfl⟩

/-- C8: a partition filter referencing columns that are not partition
columns fails, before any state is touched, with `ColumnsNotPartitioned`
listing exactly the offending column names (membership in the payload is
equivalent to being referenced by a filter and not being a partition
column); and a partition string with no `=` separator fails with
`PartitionError` carrying the malformed string. -/
theorem partition_filter_validation_errors
    (partitionColumns : List String) (filters : List (String × String)) (s : String)
    (hbad : nonPartitionedColumns partitionColumns filters ≠ [])
    (hnosep : splitAtEq s.data = none) :
    validatePartitionFilters partitionColumns filters
      = Except.error
          (DeltaTableError.ColumnsNotPartitioned
            (nonPartitionedColumns partitionColumns filters)) ∧
    (∀ c, c ∈ nonPartitionedColumns partitionColumns filters ↔
      (c ∈ filters.map Prod.fst ∧ c ∉ partitionColumns)) ∧
    parsePartition s = Except.error (DeltaTableError.PartitionError s) := by
  refine ⟨?_, ?_, ?_⟩
  · unfold validatePartitionFilters
    cases h : nonPartitionedColumns partitionColumns filters with
    | nil => exact absurd h hbad
    | cons c cs => rfl
  · intro c
    unfold nonPartitionedColumns
    simp [List.mem_filter]
  · unfold parsePartition
    rw [hnosep]

/-- Witness for C8: a filter on `region` against a table partitioned only
by `date`, and the separator-free partition string `region`. -/
theorem partition_filter_validation_errors_witness :
    nonPartitionedColumns ["date"] [("region", "eu")] ≠ [] ∧
    splitAtEq ("region" : String).data = none ∧
    (validatePartitionFilters ["date"] [("region", "eu")]
        = Except.error
            (DeltaTableError.ColumnsNotPartitioned
              (nonPartitionedColumns ["date"] [("region", "eu")])) ∧
      (∀ c, c ∈ nonPartitionedColumns ["date"] [("region", "eu")] ↔
        (c ∈ ([("region", "eu")] : List (String × String)).map Prod.fst ∧
          c ∉ (["date"] : List String))) ∧
      parsePartition "region" = Except.error (DeltaTableError.PartitionError "region")) :=
  ⟨by decide, by decide,
    partition_filter_validation_errors ["date"] [("region", "eu")] "region"
      (by decide) (by decide)⟩

/-- C9: the blanket conversion of a serde_json error into
`DeltaTableError` always produces `InvalidStatsJson` holding that very
error, so any JSON failure routed through it is reported as invalid
file-stats JSON — its message says "Invalid JSON in file stats" whatever
the JSON being parsed actually was. -/
theorem from_serde_json_always_stats (e : SerdeJsonError) :
    fromSerdeJsonError e = DeltaTableError.InvalidStatsJson e ∧
    (fromSerdeJsonError e).message = "Invalid JSON in file stats: " ++ e.msg :=
  ⟨rfl, rfl⟩

/-- C10: the taxonomy has a `ChangeDataNotRecorded` variant with
`version`, `start` and `end` fields, distinct from `ChangeDataNotEnabled`
at every payload, and its message carries the version and both range
bounds. -/
theorem change_data_not_recorded_variant (version startVersion endVersion v2 : Int) :
    (DeltaTableError.ChangeDataNotRecorded version startVersion endVersion).message
      = "Change Data not enabled for version: " ++ toString version ++ ", Start: "
          ++ toString startVersion ++ ", End: " ++ toString endVersion ∧
    DeltaTableError.ChangeDataNotRecorded version startVersion endVersion
      ≠ DeltaTableError.ChangeDataNotEnabled v2 :=
  ⟨rfl, fun h => DeltaTableError.noConfusion h⟩

end DeltaRs
